import Mathlib

/-!
Shallow embedding of the Go streaming-analytics service (src/main.go).

Float64 values are modelled as real numbers, timestamps as integers, and
the Redis-backed window list as a Lean list of metrics (every stored item
is the JSON marshalling of a `Metric`, so marshalling is modelled as the
identity).  Outcomes of remote store operations (INCR, RPUSH, LTRIM) are
passed in as explicit parameters, since they are decided by the external
store.
-/

/-- Data type of one observation, from the Go struct `Metric`
(src/main.go lines 19-23): a timestamp, a CPU percentage and an RPS value. -/
structure Metric where
  timestamp : ℤ
  cpu : ℝ
  rps : ℝ

/-- Translation of `calculateAverage` (src/main.go lines 283-292): the sum
of the values divided by their count, and 0.0 on empty input. -/
noncomputable def calculateAverage (values : List ℝ) : ℝ :=
  if values.length = 0 then 0 else values.sum / values.length

/-- Translation of `calculateStandardDeviation` (src/main.go lines 294-304):
0.0 when the list has at most one element, otherwise the square root of the
sum of squared deviations from the given mean divided by `len - 1`. -/
noncomputable def calculateStandardDeviation (values : List ℝ) (mean : ℝ) : ℝ :=
  if values.length ≤ 1 then 0
  else Real.sqrt ((values.map (fun v => (v - mean) ^ 2)).sum / (values.length - 1 : ℕ))

/-- Translation of the anomaly branch of the slow path (src/main.go lines
256-269): the anomaly counter is incremented exactly when the window
snapshot has at least two values, the standard deviation over it is
nonzero, and the absolute z-score of the current value exceeds 2.0. -/
noncomputable def anomalyDetected (currentValue : ℝ) (rpsValues : List ℝ) : Bool :=
  if 2 ≤ rpsValues.length then
    if calculateStandardDeviation rpsValues (calculateAverage rpsValues) ≠ 0 then
      if |(currentValue - calculateAverage rpsValues) /
            calculateStandardDeviation rpsValues (calculateAverage rpsValues)| > 2 then
        true
      else false
    else false
  else false

/-- Translation of Redis `LTrim key -n -1` on the window list
(src/main.go line 232): for `n > 0` it keeps the last `n` elements (all of
them when the list is shorter); for `n = 0` the start index `-0` is the
index 0, so the whole list is kept. -/
def lTrimLastN (l : List Metric) (n : ℕ) : List Metric :=
  if n = 0 then l else l.drop (l.length - n)

/-- One completed append-and-trim step of the slow path (src/main.go lines
224-235): `RPush` adds the metric at the tail, then `LTrim` keeps the last
`W` elements. -/
def appendAndTrim (w : List Metric) (m : Metric) (W : ℕ) : List Metric :=
  lTrimLastN (w ++ [m]) W

/-- Result of a sequence of completed append-and-trim operations with
capacity `W`, starting from the empty store list. -/
def runAppends (W : ℕ) (ms : List Metric) : List Metric :=
  ms.foldl (fun w m => appendAndTrim w m W) []

/-- State of the window store after one slow-path update whose `RPush` and
`LTrim` calls may each fail (src/main.go lines 224-235): a failed `RPush`
leaves the store unchanged and the goroutine returns; a failed `LTrim` is
only logged, so the pushed element stays and no trimming happens. -/
def slowPathStore (store : List Metric) (m : Metric) (W : ℕ)
    (rpushOk ltrimOk : Bool) : List Metric :=
  if rpushOk then
    if ltrimOk then lTrimLastN (store ++ [m]) W else store ++ [m]
  else store

/-- Extraction of the RPS values from a window snapshot (src/main.go lines
243-249). -/
def rpsValuesOf (window : List Metric) : List ℝ :=
  window.map Metric.rps

/-- Extraction of the CPU values from a window snapshot (src/main.go lines
243-249); the slow path builds this list but never reads it. -/
def cpuValuesOf (window : List Metric) : List ℝ :=
  window.map Metric.cpu

/-- Rolling average exported as a gauge by the slow path (src/main.go lines
251-253). -/
noncomputable def rollingAvgOf (window : List Metric) : ℝ :=
  calculateAverage (rpsValuesOf window)

/-- Z-score the slow path computes for the submitted metric against the
window snapshot (src/main.go line 262). -/
noncomputable def zScoreOf (m : Metric) (window : List Metric) : ℝ :=
  (m.rps - calculateAverage (rpsValuesOf window)) /
    calculateStandardDeviation (rpsValuesOf window) (calculateAverage (rpsValuesOf window))

/-- Anomaly verdict of the slow path for the submitted metric against the
window snapshot (src/main.go lines 256-269). -/
noncomputable def verdictOf (m : Metric) (window : List Metric) : Bool :=
  anomalyDetected m.rps (rpsValuesOf window)

/-- Responses the `/analyze` handler can send (src/main.go lines 194-281). -/
inductive HttpResponse where
  | methodNotAllowed
  | counterError
  | invalidJson
  | accepted

/-- Externally visible effects of the synchronous part of `handleAnalyze`:
whether the durable Redis counter was incremented, whether the in-process
Prometheus request counter was incremented, the CPU/RPS gauge values set
(if any), and the metric handed to the background goroutine (if any). -/
structure FastEffects where
  durableIncremented : Bool
  requestCounterInc : Bool
  gauges : Option (ℝ × ℝ)
  slowPathMetric : Option Metric

/-- Translation of the synchronous part of `handleAnalyze` (src/main.go
lines 194-281).  `incrResult` is the outcome of the Redis `INCR` (`none`
on store error) and `body` the outcome of decoding the request body as a
`Metric` (`none` on malformed JSON).  The handler first increments the
durable counter, then the Prometheus request counter, then decodes the
body, then sets the gauges and launches the slow path. -/
def handleAnalyzeFast (isPost : Bool) (incrResult : Option ℤ) (body : Option Metric) :
    HttpResponse × FastEffects :=
  if !isPost then
    (.methodNotAllowed, ⟨false, false, none, none⟩)
  else
    match incrResult with
    | none => (.counterError, ⟨false, false, none, none⟩)
    | some _ =>
      match body with
      | none => (.invalidJson, ⟨true, true, none, none⟩)
      | some m => (.accepted, ⟨true, true, some (m.cpu, m.rps), some m⟩)

/-- Translation of `getEnv` (src/main.go lines 182-188): the value of the
environment variable, or the default when it is unset (empty). -/
def getEnv (env : String → String) (key defaultValue : String) : String :=
  if env key = "" then defaultValue else env key

/-- Configuration assembled by `main` (src/main.go lines 40-101, 110):
Redis address and listening port come from the environment with defaults;
the window size is the constant 50. -/
structure AppConfig where
  redisAddr : String
  port : String
  windowSize : ℕ

/-- Translation of the configuration reads in `main` (src/main.go lines
40-41, 93-101, 110). -/
def mainConfig (env : String → String) : AppConfig :=
  { redisAddr := getEnv env "REDIS_ADDR" "redis-master.default.svc.cluster.local:6379"
    port := getEnv env "PORT" "8080"
    windowSize := 50 }

/-- Modelled from the spec: the arithmetic mean of a sequence of floats,
0.0 by convention on empty input (spec section 4.2). -/
noncomputable def specMean (values : List ℝ) : ℝ :=
  if values = [] then 0 else values.sum / values.length

/-- Modelled from the spec: the sample standard deviation (denominator
`n - 1`) of a sequence of floats, 0.0 when the sequence has at most one
element (spec section 4.2). -/
noncomputable def specSampleStddev (values : List ℝ) : ℝ :=
  if values.length ≤ 1 then 0
  else Real.sqrt (((values.map (fun v => (v - specMean values) ^ 2)).sum) / (values.length - 1 : ℕ))

/-- Modelled from the spec: the anomaly predicate of section 4.3 — at least
two window values, nonzero sample standard deviation, and absolute z-score
above the fixed 2.0 threshold. -/
def specAnomalous (currentValue : ℝ) (windowValues : List ℝ) : Prop :=
  2 ≤ windowValues.length ∧ specSampleStddev windowValues ≠ 0 ∧
    |(currentValue - specMean windowValues) / specSampleStddev windowValues| > 2

/-! Helper lemmas shared by several claims. -/

theorem calculateAverage_eq_specMean (values : List ℝ) :
    calculateAverage values = specMean values := by
  unfold calculateAverage specMean
  simp [List.length_eq_zero]

theorem calculateStandardDeviation_eq_spec (values : List ℝ) :
    calculateStandardDeviation values (calculateAverage values) = specSampleStddev values := by
  unfold calculateStandardDeviation specSampleStddev
  rw [calculateAverage_eq_specMean]

theorem anomalyDetected_eq_true_iff (c : ℝ) (vs : List ℝ) :
    anomalyDetected c vs = true ↔
      2 ≤ vs.length ∧ calculateStandardDeviation vs (calculateAverage vs) ≠ 0 ∧
        |(c - calculateAverage vs) / calculateStandardDeviation vs (calculateAverage vs)| > 2 := by
  unfold anomalyDetected
  split_ifs with h1 h2 h3 <;> simp_all

/-- C1: the slow-path anomaly verdict is anomalous exactly when the window
snapshot has at least two values, the sample standard deviation over it is
nonzero, and the absolute z-score of the current value exceeds 2.0; with a
short or degenerate window no anomaly is reported and the anomaly counter
is not incremented. -/
theorem anomaly_verdict_iff_spec (c : ℝ) (vs : List ℝ) :
    anomalyDetected c vs = true ↔ specAnomalous c vs := by
  unfold specAnomalous
  rw [anomalyDetected_eq_true_iff, calculateStandardDeviation_eq_spec,
    calculateAverage_eq_specMean]

/-- C2: calculateAverage is the arithmetic mean with 0.0 on empty input,
and calculateStandardDeviation at that mean is the sample standard
deviation with denominator n-1, equal to 0.0 for lists of at most one
element. -/
theorem mean_and_stddev_match_spec (vs : List ℝ) :
    calculateAverage vs = specMean vs ∧
      calculateAverage [] = 0 ∧
      calculateStandardDeviation vs (calculateAverage vs) = specSampleStddev vs ∧
      (vs.length ≤ 1 → calculateStandardDeviation vs (calculateAverage vs) = 0) := by
  refine ⟨calculateAverage_eq_specMean vs, ?_, calculateStandardDeviation_eq_spec vs, ?_⟩
  · simp [calculateAverage]
  · intro h
    simp [calculateStandardDeviation, h]

/-- Witness for C2 at the singleton list: the standard deviation of a
one-element window is 0. -/
theorem mean_and_stddev_match_spec_witness :
    calculateStandardDeviation [(5 : ℝ)] (calculateAverage [(5 : ℝ)]) = 0 :=
  (mean_and_stddev_match_spec [(5 : ℝ)]).2.2.2 (by simp)

/-- C5 counterexample: a POST whose durable-counter increment succeeded
but whose body fails to decode is rejected with the client error, yet the
durable request counter and the Prometheus request counter have already
been incremented, contradicting the claim that no state mutation occurs
on malformed input. -/
theorem malformed_payload_counter_already_incremented :
    handleAnalyzeFast true (some 1) none =
      (HttpResponse.invalidJson, ⟨true, true, none, none⟩) := rfl

/-- C5 amended: on malformed input the handler responds with the client
error, sets no gauges and initiates no window append, but the durable
request counter and the Prometheus request counter have already been
incremented before the body was decoded. -/
theorem malformed_payload_rejected_after_counters (n : ℤ) :
    handleAnalyzeFast true (some n) none =
      (HttpResponse.invalidJson, ⟨true, true, none, none⟩) := rfl

/-- C8: when the durable counter increment fails the handler returns the
server error and nothing else happens: no acceptance acknowledgment, no
request-counter increment, no gauge update, and no slow-path window append
is initiated, whatever the body holds. -/
theorem counter_failure_rejects_request (body : Option Metric) :
    handleAnalyzeFast true none body =
      (HttpResponse.counterError, ⟨false, false, none, none⟩) := rfl

/-- C9 counterexample: an environment that binds every variable (hence any
would-be window-capacity variable) to the string 7 changes the listening
port and the store address, but the trimming capacity stays 50: the window
capacity is not externally supplied configuration. -/
theorem window_capacity_ignores_environment :
    (mainConfig (fun _ => "7")).windowSize = 50 ∧
      (mainConfig (fun _ => "7")).port = "7" ∧
      (mainConfig (fun _ => "7")).redisAddr = "7" := by
  refine ⟨rfl, ?_, ?_⟩ <;> simp [mainConfig, getEnv]

/-- C9 amended: the listening port and the store address are externally
supplied with defaults, while the window capacity used for trimming is
the fixed constant 50 regardless of the environment. -/
theorem config_port_addr_from_env_capacity_fixed (env : String → String) :
    (mainConfig env).windowSize = 50 ∧
      (mainConfig env).port = getEnv env "PORT" "8080" ∧
      (mainConfig env).redisAddr =
        getEnv env "REDIS_ADDR" "redis-master.default.svc.cluster.local:6379" :=
  ⟨rfl, rfl, rfl⟩

/-- C7 counterexample: starting from a full 50-element window, a
successful RPush followed by a failed LTrim leaves the appended metric in
the store and the window at 51 elements, while the completed update would
leave 50: an intermediate append-without-trim state is visible and the
failed update still changed history, so append-and-trim is not
all-or-nothing. -/
theorem append_without_trim_visible :
    (slowPathStore (List.replicate 50 ⟨0, 0, 10⟩) ⟨1, 0, 20⟩ 50 true false).length = 51 ∧
      (⟨1, 0, 20⟩ : Metric) ∈ slowPathStore (List.replicate 50 ⟨0, 0, 10⟩) ⟨1, 0, 20⟩ 50 true false ∧
      (slowPathStore (List.replicate 50 ⟨0, 0, 10⟩) ⟨1, 0, 20⟩ 50 true true).length = 50 := by
  refine ⟨?_, ?_, ?_⟩ <;> simp [slowPathStore, lTrimLastN]

/-- C7 amended: the slow-path window update is not atomic.  A failed
append leaves the store unchanged and the observation is lost; a
successful append followed by a failed trim leaves the appended but
untrimmed list visible; only a fully successful update yields the trimmed
window.  In every case the failure is only logged and the pipeline
continues. -/
theorem slow_path_update_cases (store : List Metric) (m : Metric) (W : ℕ) (b : Bool) :
    slowPathStore store m W false b = store ∧
      slowPathStore store m W true false = store ++ [m] ∧
      slowPathStore store m W true true = lTrimLastN (store ++ [m]) W :=
  ⟨rfl, rfl, rfl⟩

/-- C10: the rolling average, the z-score and the anomaly verdict depend
only on the RPS values of the submitted metric and the window snapshot;
CPU values and timestamps never influence them. -/
theorem analysis_depends_only_on_rps (m₁ m₂ : Metric) (w₁ w₂ : List Metric)
    (hm : m₁.rps = m₂.rps) (hw : rpsValuesOf w₁ = rpsValuesOf w₂) :
    rollingAvgOf w₁ = rollingAvgOf w₂ ∧ zScoreOf m₁ w₁ = zScoreOf m₂ w₂ ∧
      verdictOf m₁ w₁ = verdictOf m₂ w₂ := by
  unfold rollingAvgOf zScoreOf verdictOf
  rw [hm, hw]
  exact ⟨rfl, rfl, rfl⟩

/-- Witness for C10: two metrics and two windows that agree on RPS values
but have different CPU values and timestamps yield identical statistics
and verdicts. -/
theorem analysis_depends_only_on_rps_witness :
    Metric.rps ⟨0, 10, 5⟩ = Metric.rps ⟨99, 77, 5⟩ ∧
      rpsValuesOf [⟨0, 1, 5⟩, ⟨1, 2, 6⟩] = rpsValuesOf [⟨5, 30, 5⟩, ⟨7, 40, 6⟩] ∧
      rollingAvgOf [⟨0, 1, 5⟩, ⟨1, 2, 6⟩] = rollingAvgOf [⟨5, 30, 5⟩, ⟨7, 40, 6⟩] ∧
      zScoreOf ⟨0, 10, 5⟩ [⟨0, 1, 5⟩, ⟨1, 2, 6⟩] =
        zScoreOf ⟨99, 77, 5⟩ [⟨5, 30, 5⟩, ⟨7, 40, 6⟩] ∧
      verdictOf ⟨0, 10, 5⟩ [⟨0, 1, 5⟩, ⟨1, 2, 6⟩] =
        verdictOf ⟨99, 77, 5⟩ [⟨5, 30, 5⟩, ⟨7, 40, 6⟩] := by
  have h := analysis_depends_only_on_rps ⟨0, 10, 5⟩ ⟨99, 77, 5⟩
    [⟨0, 1, 5⟩, ⟨1, 2, 6⟩] [⟨5, 30, 5⟩, ⟨7, 40, 6⟩] rfl rfl
  exact ⟨rfl, rfl, h.1, h.2.1, h.2.2⟩

/-- Helper for C3: folding completed append-and-trim steps over any start
list of length at most W keeps the last W elements of the concatenation. -/
theorem foldl_appendAndTrim (W : ℕ) (hW : 0 < W) :
    ∀ (ms : List Metric) (w : List Metric), w.length ≤ W →
      ms.foldl (fun w m => appendAndTrim w m W) w =
        (w ++ ms).drop (w.length + ms.length - W) := by
  intro ms
  induction ms with
  | nil =>
    intro w hw
    simp [Nat.sub_eq_zero_of_le hw]
  | cons m ms ih =>
    intro w hw
    have hWne : W ≠ 0 := Nat.pos_iff_ne_zero.mp hW
    have hstep : appendAndTrim w m W = (w ++ [m]).drop (w.length + 1 - W) := by
      simp [appendAndTrim, lTrimLastN, hWne]
    have hlen : (appendAndTrim w m W).length ≤ W := by
      rw [hstep]
      simp only [List.length_drop, List.length_append, List.length_cons, List.length_nil]
      omega
    have hd : w.length + 1 - W ≤ (w ++ [m]).length := by
      simp only [List.length_append, List.length_cons, List.length_nil]
      omega
    rw [List.foldl_cons, ih (appendAndTrim w m W) hlen, hstep, List.length_drop,
      ← List.drop_append_of_le_length hd, List.drop_drop]
    have hlist : (w ++ [m]) ++ ms = w ++ m :: ms := by simp
    rw [hlist]
    congr 1
    simp only [List.length_append, List.length_cons, List.length_nil]
    omega

/-- C3: after any sequence of completed append-and-trim operations with
positive capacity W, starting from the empty store, the window length
never exceeds W and the retained elements are exactly the most recently
appended metrics up to W, oldest evicted first. -/
theorem window_bounded_most_recent (W : ℕ) (hW : 0 < W) (ms : List Metric) :
    (runAppends W ms).length ≤ W ∧ runAppends W ms = ms.drop (ms.length - W) := by
  have h := foldl_appendAndTrim W hW ms [] (by simp)
  unfold runAppends
  simp only [List.nil_append, List.length_nil, Nat.zero_add] at h
  rw [h]
  constructor
  · simp only [List.length_drop]
    omega
  · rfl

/-- Witness for C3: capacity 2 with three appended metrics retains exactly
the last two. -/
theorem window_bounded_most_recent_witness :
    (0 : ℕ) < 2 ∧
      (runAppends 2 [⟨0, 0, 1⟩, ⟨1, 0, 2⟩, ⟨2, 0, 3⟩]).length ≤ 2 ∧
      runAppends 2 [⟨0, 0, 1⟩, ⟨1, 0, 2⟩, ⟨2, 0, 3⟩] =
        [(⟨0, 0, 1⟩ : Metric), ⟨1, 0, 2⟩, ⟨2, 0, 3⟩].drop
          ([(⟨0, 0, 1⟩ : Metric), ⟨1, 0, 2⟩, ⟨2, 0, 3⟩].length - 2) :=
  ⟨by decide, (window_bounded_most_recent 2 (by decide) _).1,
    (window_bounded_most_recent 2 (by decide) _).2⟩

/-- Helper for C6: the sum of a constant list. -/
theorem sum_const_list (vs : List ℝ) (x : ℝ) (h : ∀ v ∈ vs, v = x) :
    vs.sum = vs.length * x := by
  induction vs with
  | nil => simp
  | cons a t ih =>
    simp only [List.sum_cons, List.length_cons]
    rw [h a (by simp), ih (fun v hv => h v (by simp [hv]))]
    push_cast
    ring

/-- Helper for C6: the average of a nonempty constant list is the constant. -/
theorem calculateAverage_const (vs : List ℝ) (x : ℝ) (hne : vs ≠ [])
    (h : ∀ v ∈ vs, v = x) : calculateAverage vs = x := by
  have hl : vs.length ≠ 0 := by simpa [List.length_eq_zero] using hne
  have hlr : (vs.length : ℝ) ≠ 0 := Nat.cast_ne_zero.mpr hl
  unfold calculateAverage
  rw [if_neg hl, sum_const_list vs x h]
  exact mul_div_cancel_left₀ x hlr

/-- C6: when all window values are identical the sample standard deviation
is exactly 0, so the evaluation reports no anomaly whatever the current
value is (the zero-stddev guard fires before any division). -/
theorem constant_window_no_verdict (c x : ℝ) (vs : List ℝ) (h : ∀ v ∈ vs, v = x) :
    calculateStandardDeviation vs (calculateAverage vs) = 0 ∧
      anomalyDetected c vs = false := by
  have hstd : calculateStandardDeviation vs (calculateAverage vs) = 0 := by
    by_cases hl : vs.length ≤ 1
    · simp [calculateStandardDeviation, hl]
    · have hne : vs ≠ [] := by
        intro hnil
        rw [hnil] at hl
        simp at hl
      have hmean := calculateAverage_const vs x hne h
      have hsum : (vs.map (fun v => (v - calculateAverage vs) ^ 2)).sum = 0 := by
        apply List.sum_eq_zero
        intro y hy
        rcases List.mem_map.mp hy with ⟨v, hv, rfl⟩
        rw [h v hv, hmean]
        ring
      simp [calculateStandardDeviation, hl, hsum]
  refine ⟨hstd, ?_⟩
  unfold anomalyDetected
  split_ifs with h1 h2 h3 <;> simp_all

/-- Witness for C6: the all-tens window with current value 50 exercises
the zero-stddev guard and produces no verdict. -/
theorem constant_window_no_verdict_witness :
    (∀ v ∈ [(10 : ℝ), 10, 10, 10, 10], v = 10) ∧
      calculateStandardDeviation [(10 : ℝ), 10, 10, 10, 10]
        (calculateAverage [(10 : ℝ), 10, 10, 10, 10]) = 0 ∧
      anomalyDetected 50 [(10 : ℝ), 10, 10, 10, 10] = false := by
  have h : ∀ v ∈ [(10 : ℝ), 10, 10, 10, 10], v = 10 := by
    intro v hv
    simp only [List.mem_cons, List.not_mem_nil, or_false] at hv
    rcases hv with rfl | rfl | rfl | rfl | rfl <;> rfl
  exact ⟨h, (constant_window_no_verdict 50 10 _ h).1,
    (constant_window_no_verdict 50 10 _ h).2⟩

/-- Helper for C4: the mean of the example window ending in 60. -/
theorem avg_w60 : calculateAverage [10, 12, 9, 11, 10, 60] = 56 / 3 := by
  unfold calculateAverage
  norm_num

/-- Helper for C4: closed form of the standard deviation of the example
window ending in 60. -/
theorem stddev_w60_eq :
    calculateStandardDeviation [10, 12, 9, 11, 10, 60] (56 / 3) = Real.sqrt (6166 / 15) := by
  unfold calculateStandardDeviation
  rw [if_neg (by norm_num)]
  congr 1
  norm_num

/-- Helper for C4: two-sided bounds on the standard deviation of the
example window ending in 60. -/
theorem stddev_w60_bounds :
    (20.27 : ℝ) < Real.sqrt (6166 / 15) ∧ Real.sqrt (6166 / 15) < 20.28 :=
  ⟨(Real.lt_sqrt (by norm_num)).mpr (by norm_num),
    (Real.sqrt_lt' (by norm_num)).mpr (by norm_num)⟩

/-- Helper for C4: the mean of the example window ending in 11. -/
theorem avg_w11 : calculateAverage [10, 12, 9, 11, 10, 11] = 21 / 2 := by
  unfold calculateAverage
  norm_num

/-- Helper for C4: closed form of the standard deviation of the example
window ending in 11. -/
theorem stddev_w11_eq :
    calculateStandardDeviation [10, 12, 9, 11, 10, 11] (21 / 2) = Real.sqrt (11 / 10) := by
  unfold calculateStandardDeviation
  rw [if_neg (by norm_num)]
  congr 1
  norm_num

/-- C4 counterexample: for the window [10, 12, 9, 11, 10, 60] the sample
standard deviation lies strictly between 20.2 and 20.3, so it is not
approximately 19.8, and the z-score of 60 lies strictly between 2.03 and
2.05, so it is not approximately 2.09. -/
theorem example_window_stats_differ_from_claim :
    20.2 < calculateStandardDeviation [10, 12, 9, 11, 10, 60]
        (calculateAverage [10, 12, 9, 11, 10, 60]) ∧
      calculateStandardDeviation [10, 12, 9, 11, 10, 60]
        (calculateAverage [10, 12, 9, 11, 10, 60]) < 20.3 ∧
      2.03 < (60 - calculateAverage [10, 12, 9, 11, 10, 60]) /
        calculateStandardDeviation [10, 12, 9, 11, 10, 60]
          (calculateAverage [10, 12, 9, 11, 10, 60]) ∧
      (60 - calculateAverage [10, 12, 9, 11, 10, 60]) /
        calculateStandardDeviation [10, 12, 9, 11, 10, 60]
          (calculateAverage [10, 12, 9, 11, 10, 60]) < 2.05 := by
  rw [avg_w60, stddev_w60_eq]
  obtain ⟨hlo, hhi⟩ := stddev_w60_bounds
  have hpos : (0 : ℝ) < Real.sqrt (6166 / 15) := by linarith
  refine ⟨by linarith, by linarith, ?_, ?_⟩
  · rw [lt_div_iff₀ hpos]
    nlinarith
  · rw [div_lt_iff₀ hpos]
    nlinarith

/-- C4 amended: for the window [10, 12, 9, 11, 10, 60] with 60 under test
the mean is 56/3 (about 18.67), the sample standard deviation lies between
20.27 and 20.28 (about 20.28, not 19.8), the z-score of 60 lies between
2.03 and 2.05 (about 2.04, not 2.09), and 60 is classified anomalous;
with the same history a final value of 11 is not anomalous. -/
theorem example_window_verdicts :
    calculateAverage [10, 12, 9, 11, 10, 60] = 56 / 3 ∧
      20.27 < calculateStandardDeviation [10, 12, 9, 11, 10, 60]
          (calculateAverage [10, 12, 9, 11, 10, 60]) ∧
      calculateStandardDeviation [10, 12, 9, 11, 10, 60]
        (calculateAverage [10, 12, 9, 11, 10, 60]) < 20.28 ∧
      2.03 < (60 - calculateAverage [10, 12, 9, 11, 10, 60]) /
        calculateStandardDeviation [10, 12, 9, 11, 10, 60]
          (calculateAverage [10, 12, 9, 11, 10, 60]) ∧
      (60 - calculateAverage [10, 12, 9, 11, 10, 60]) /
        calculateStandardDeviation [10, 12, 9, 11, 10, 60]
          (calculateAverage [10, 12, 9, 11, 10, 60]) < 2.05 ∧
      anomalyDetected 60 [10, 12, 9, 11, 10, 60] = true ∧
      anomalyDetected 11 [10, 12, 9, 11, 10, 11] = false := by
  obtain ⟨hlo, hhi⟩ := stddev_w60_bounds
  have hpos : (0 : ℝ) < Real.sqrt (6166 / 15) := by linarith
  have hz_lo : (2.03 : ℝ) < (60 - 56 / 3) / Real.sqrt (6166 / 15) := by
    rw [lt_div_iff₀ hpos]
    nlinarith
  have hz_hi : (60 - 56 / 3 : ℝ) / Real.sqrt (6166 / 15) < 2.05 := by
    rw [div_lt_iff₀ hpos]
    nlinarith
  have hv60 : anomalyDetected 60 [10, 12, 9, 11, 10, 60] = true := by
    unfold anomalyDetected
    rw [avg_w60, stddev_w60_eq, if_pos (by norm_num), if_pos (ne_of_gt hpos),
      if_pos]
    rw [abs_of_pos (by positivity)]
    rw [gt_iff_lt, lt_div_iff₀ hpos]
    nlinarith
  have hs11_pos : (0 : ℝ) < Real.sqrt (11 / 10) := Real.sqrt_pos.mpr (by norm_num)
  have hs11_ge1 : (1 : ℝ) ≤ Real.sqrt (11 / 10) :=
    (Real.le_sqrt (by norm_num) (by norm_num)).mpr (by norm_num)
  have hv11 : anomalyDetected 11 [10, 12, 9, 11, 10, 11] = false := by
    unfold anomalyDetected
    rw [avg_w11, stddev_w11_eq, if_pos (by norm_num), if_pos (ne_of_gt hs11_pos),
      if_neg]
    rw [abs_of_pos (by positivity)]
    rw [gt_iff_lt, not_lt, div_le_iff₀ hs11_pos]
    nlinarith
  rw [avg_w60, stddev_w60_eq]
  exact ⟨rfl, hlo, hhi, hz_lo, hz_hi, hv60, hv11⟩
